import Mathlib

/-!
# Verification of the mindsmakingvoice text-to-speech core

Shallow embedding, in Lean, of the client-side core of the mindsmakingvoice
web application: the `TTSService` speech-request orchestrator
(`mapVoiceSettings`, `generateSpeech`, `generateSpeechWithFallback`,
`generateSpeechWithGoogleCloud`), the `AudioPlayer` transport handlers
(`handleSeek`, `handleVolumeChange`), and the `TextToSpeechGenerator`
component generation flow `handleGenerate` together with the persistence call it makes
through `SupabaseService.saveAudioGeneration`.

Modelling conventions:
* JavaScript strings are Lean `String`s; the handful of string operations the
  code uses (`trim`, `split` on a whitespace run, `includes`) are defined
  below on the underlying character lists.
* JavaScript numbers are IEEE-754 binary64 values.  Where the exact numeric
  value matters (the word-count duration estimate) they are modelled
  bit-accurately by `dblRound`, round-to-nearest-ties-to-even at 53
  significand bits over exact rationals, with unbounded exponent (no
  overflow or subnormal range, which the values arising here never reach).
  Where only order and sign matter (the audio-player arithmetic) exact
  rationals are used directly.
* `async` functions that can reject are `Except String` values; the rejection
  carries the error message.  The outcome of the single network request and
  of the response-body read are inputs (`TTSEnv`), since the network is
  outside the program.
* Calls to the `onProgress` callback are collected, in order, into a list.
-/

deriving instance DecidableEq for Except

namespace MindsMakingVoice

/-! ## JavaScript string primitives -/

/-- Whitespace test used by `String.prototype.trim` and the regex `\s`. -/
def isWs (c : Char) : Bool := c.isWhitespace

/-- Model of `String.prototype.trim` on the character list: drop whitespace from both
ends. -/
def jsTrimList (l : List Char) : List Char :=
  ((l.dropWhile isWs).reverse.dropWhile isWs).reverse

/-- Counts the maximal runs of non-whitespace characters in `l`; the flag
records whether the previous character was inside a run. -/
def countRunsAux : Bool → List Char → Nat
  | _, [] => 0
  | inWord, c :: rest =>
    if isWs c then countRunsAux false rest
    else (if inWord then 0 else 1) + countRunsAux true rest

/-- Model of the word count taken in `generateSpeech` (trim, split on
whitespace runs, length): the number of
whitespace-separated tokens of the trimmed text.  In JavaScript, splitting
the empty string on a regex yields a one-element array holding the empty
string, so an empty or whitespace-only text counts as 1. -/
def jsWordCount (text : String) : Nat :=
  if jsTrimList text.data = [] then 1 else countRunsAux false (jsTrimList text.data)

/-- Decides whether the first list is a leading segment of the second. -/
def listStartsWith : List Char → List Char → Bool
  | [], _ => true
  | _ :: _, [] => false
  | a :: as, b :: bs => a == b && listStartsWith as bs

/-- Decides whether `sub` occurs as a contiguous segment of the second list. -/
def listContains (sub : List Char) : List Char → Bool
  | [] => listStartsWith sub []
  | c :: rest => listStartsWith sub (c :: rest) || listContains sub rest

/-- Model of `String.prototype.includes`: substring containment. -/
def jsIncludes (s sub : String) : Bool := listContains sub.data s.data

/-! ## IEEE-754 binary64 rounding over exact rationals -/

/-- Round a rational to the nearest integer, ties to even. -/
def roundNE (q : ℚ) : ℤ :=
  if q - ⌊q⌋ < 1/2 then ⌊q⌋
  else if 1/2 < q - ⌊q⌋ then ⌊q⌋ + 1
  else if ⌊q⌋ % 2 = 0 then ⌊q⌋ else ⌊q⌋ + 1

/-- Round a nonnegative rational to the nearest binary64 value: 53 significand
bits, round to nearest, ties to even, unbounded exponent.  This is the result
of any single IEEE-754 double operation whose exact value is `q`, as long as
`q` is inside the normal range. -/
def dblRound (q : ℚ) : ℚ :=
  if q ≤ 0 then 0
  else (roundNE (q * (2:ℚ)^((52:ℤ) - Int.log 2 q)) : ℚ) * (2:ℚ)^(Int.log 2 q - (52:ℤ))

/-- The duration estimate of `generateSpeech`:
`Math.ceil((wordCount / 150) * 60)` evaluated in binary64 arithmetic — the
division and the multiplication each round once, `Math.ceil` is exact. -/
def estimatedDuration (wordCount : Nat) : Nat :=
  (⌈dblRound (dblRound ((wordCount : ℚ) / 150) * 60)⌉).toNat

/-- The duration formula as the specification states it: `word_count / 150`
words-per-minute `× 60`, rounded up, in exact arithmetic. -/
def specCeilDuration (wordCount : Nat) : Nat := ⌈((wordCount : ℚ) / 150) * 60⌉₊

/-! ## Voice-settings mapping (`TTSService.mapVoiceSettings`) -/

/-- The UI voice-customization tuple handled by `TextToSpeechGenerator` and
passed to `TTSService`. -/
structure VoiceSettings where
  voiceStyle : String
  voiceSpeed : String
  voicePitch : String
  emotion : String
  character : String
deriving DecidableEq

/-- The own property names of `Object.prototype`.  A JavaScript property read
`obj[key]` on an object literal falls back to the prototype chain: for any of
these names it yields the inherited member (a function, or for the dunder
proto accessor an object), every one of which is truthy. -/
def objectPrototypeKeys : List String :=
  ["constructor", "hasOwnProperty", "isPrototypeOf", "propertyIsEnumerable",
   "toLocaleString", "toString", "valueOf", "__proto__",
   "__defineGetter__", "__defineSetter__", "__lookupGetter__", "__lookupSetter__"]

/-- A JavaScript value read out of one of the mapping object literals: either
a proper table or default value, or the truthy member inherited from
`Object.prototype` under the property name that reached it. -/
inductive JSVal (α : Type) where
  | val : α → JSVal α
  | protoMember : String → JSVal α
deriving DecidableEq

/-- The vendor request parameters produced by `mapVoiceSettings`.  The voice
and speed carry `JSVal` because a prototype-named key leaks the inherited
member into the request. -/
structure OpenAISettings where
  voice : JSVal String
  speed : JSVal ℚ
  model : String
deriving DecidableEq

/-- Embeds the `voiceMapping` object-literal read with JavaScript property
semantics: the six own keys give the table voice name; a name of an
`Object.prototype` member gives that truthy inherited member; any other key
is `undefined` (`none`). -/
def voiceMapping (character : String) : Option (JSVal String) :=
  if character = "chloe" then some (.val "alloy")
  else if character = "kelly" then some (.val "echo")
  else if character = "racheal" then some (.val "fable")
  else if character = "david" then some (.val "onyx")
  else if character = "alex" then some (.val "nova")
  else if character = "sarah" then some (.val "shimmer")
  else if character ∈ objectPrototypeKeys then some (.protoMember character)
  else none

/-- Embeds the `speedMapping` object-literal read with JavaScript property
semantics, as for `voiceMapping`. -/
def speedMapping (voiceSpeed : String) : Option (JSVal ℚ) :=
  if voiceSpeed = "slow" then some (.val (3/4))
  else if voiceSpeed = "normal" then some (.val 1)
  else if voiceSpeed = "fast" then some (.val (5/4))
  else if voiceSpeed ∈ objectPrototypeKeys then some (.protoMember voiceSpeed)
  else none

/-- Embeds `TTSService.mapVoiceSettings`: reads `character` and `voiceSpeed`
from the two object literals, with the alloy voice and 1.0 speed applied by
`||` only when the read is `undefined` — every own table value and every
inherited prototype member is truthy, so `||` is exactly `Option.getD`; the
model is the constant tts-1 string. -/
def mapVoiceSettings (settings : VoiceSettings) : OpenAISettings :=
  { voice := (voiceMapping settings.character).getD (.val "alloy")
    speed := (speedMapping settings.voiceSpeed).getD (.val 1)
    model := "tts-1" }

/-! ## `TTSService.generateSpeech` -/

/-- The environment of one generation attempt: whether the OpenAI key is
configured (set and different from the your-openai-api-key-here
placeholder), the outcome of the `openai.audio.speech.create` call, and the
outcome of reading the response body (`response.arrayBuffer()`), whose bytes
are the audio. -/
structure TTSEnv where
  apiKeyConfigured : Bool
  apiResponse : Except String Unit
  responseBody : Except String (List Nat)
deriving DecidableEq

/-- Model of `URL.createObjectURL` on the audio blob, modelled as a deterministic
`blob:` URL naming the bytes. -/
def createObjectURL (bytes : List Nat) : String :=
  "blob:" ++ toString bytes.length

/-- The object `generateSpeech` resolves with. -/
structure GenerationResult where
  audioUrl : String
  audioBlob : List Nat
  duration : Nat
  fileSize : Nat
  format : String
deriving DecidableEq

/-- Result, ordered `onProgress` calls, and whether the network request was
issued. -/
structure GenOutcome where
  result : Except String GenerationResult
  progress : List Nat
  networkCalled : Bool
deriving DecidableEq

/-- The `catch` block of `generateSpeech`: rewrites the caught message by
substring classification (auth/config, quota, network), else wraps it as
`Speech generation failed: ...`. -/
def wrapTTSError (msg : String) : String :=
  if jsIncludes msg "API key" then
    "Invalid or missing OpenAI API key. Please check your configuration."
  else if jsIncludes msg "quota" then
    "OpenAI API quota exceeded. Please check your account limits."
  else if jsIncludes msg "network" || jsIncludes msg "fetch" then
    "Network error. Please check your internet connection and try again."
  else "Speech generation failed: " ++ msg

/-- Embeds `TTSService.generateSpeech`.  Inside the `try`: missing key and empty
trimmed text throw before the network call (the thrown messages are still
routed through the catch of this same function, hence `wrapTTSError` on every
error path); then `onProgress(10)`, `mapVoiceSettings` (total), 30, the
vendor call, 70, the body read, 90, and 100 with the resolved value, whose
`duration` is `estimatedDuration` of the word count. -/
def generateSpeech (env : TTSEnv) (text : String) (_settings : VoiceSettings) :
    GenOutcome :=
  if env.apiKeyConfigured = false then
    { result := .error (wrapTTSError "OpenAI API key is not configured. Please add your API key to the .env file.")
      progress := []
      networkCalled := false }
  else if jsTrimList text.data = [] then
    { result := .error (wrapTTSError "Text content is required for speech generation.")
      progress := []
      networkCalled := false }
  else
    match env.apiResponse with
    | .error msg =>
      { result := .error (wrapTTSError msg), progress := [10, 30], networkCalled := true }
    | .ok () =>
      match env.responseBody with
      | .error msg =>
        { result := .error (wrapTTSError msg), progress := [10, 30, 70], networkCalled := true }
      | .ok bytes =>
        { result := .ok
            { audioUrl := createObjectURL bytes
              audioBlob := bytes
              duration := estimatedDuration (jsWordCount text)
              fileSize := bytes.length
              format := "mp3" }
          progress := [10, 30, 70, 90, 100]
          networkCalled := true }

/-! ## The fallback path -/

/-- Embeds `TTSService.generateSpeechWithGoogleCloud` as it actually is in the
source.  In the source file the `throw new Error(...)` statement that was
meant to reject with a Google Cloud TTS not-yet-implemented error sits on the
same line as, and inside, a line comment, so it is commented out; the `async`
function body contains no executable statement at all.  The function
therefore always fulfills with `undefined` (here `none`). -/
def generateSpeechWithGoogleCloud (_text : String) (_settings : VoiceSettings) :
    Except String (Option GenerationResult) := .ok none

/-- Outcome of `generateSpeechWithFallback`; the resolved value is an
`Option GenerationResult` because the Google Cloud path resolves with
`undefined`. -/
structure FallbackOutcome where
  result : Except String (Option GenerationResult)
  progress : List Nat
  networkCalled : Bool
deriving DecidableEq

/-- Embeds `TTSService.generateSpeechWithFallback`: try `generateSpeech`; on
rejection try `generateSpeechWithGoogleCloud`; only if that also rejects,
reject with the single aggregated error. -/
def generateSpeechWithFallback (env : TTSEnv) (text : String)
    (settings : VoiceSettings) : FallbackOutcome :=
  match (generateSpeech env text settings).result with
  | .ok r =>
    { result := .ok (some r)
      progress := (generateSpeech env text settings).progress
      networkCalled := (generateSpeech env text settings).networkCalled }
  | .error _ =>
    match generateSpeechWithGoogleCloud text settings with
    | .ok v =>
      { result := .ok v
        progress := (generateSpeech env text settings).progress
        networkCalled := (generateSpeech env text settings).networkCalled }
    | .error _ =>
      { result := .error "Both OpenAI and Google Cloud TTS services are unavailable. Please try again later."
        progress := (generateSpeech env text settings).progress
        networkCalled := (generateSpeech env text settings).networkCalled }

/-! ## AudioPlayer transport handlers -/

/-- The `AudioPlayer` component state relevant to the transport handlers:
`isPlaying`, `currentTime`, `duration`, `volume` (the audio element mirrors
`currentTime` and `volume`). -/
structure PlayerState where
  isPlaying : Bool
  currentTime : ℚ
  duration : ℚ
  volume : ℚ
deriving DecidableEq

/-- The click event data `handleSeek` reads: the click x coordinate and the
bounding rectangle of the progress bar. -/
structure SeekEvent where
  clientX : ℚ
  rectLeft : ℚ
  rectWidth : ℚ
deriving DecidableEq

/-- Embeds `AudioPlayer.handleSeek`: `clickX = clientX - rect.left`,
`newTime = (clickX / rect.width) * duration`, assigned to the audio element
and the state with no clamping and no change to the play state. -/
def handleSeek (e : SeekEvent) (st : PlayerState) : PlayerState :=
  { st with currentTime := (e.clientX - e.rectLeft) / e.rectWidth * st.duration }

/-- Embeds `AudioPlayer.handleVolumeChange`: the parsed slider value is
assigned to the state and the audio element as is, with no clamping and no
change to the play state or position. -/
def handleVolumeChange (value : ℚ) (st : PlayerState) : PlayerState :=
  { st with volume := value }

/-! ## The `TextToSpeechGenerator` generation flow -/

/-- The component state `handleGenerate` touches. -/
structure GeneratorState where
  isGenerating : Bool
  progress : Nat
  audioUrl : Option String
  audioBlob : Option (List Nat)
  error : String
deriving DecidableEq

/-- Embeds the `canGenerate` guard: nonempty trimmed text and truthy
(nonempty) settings strings. -/
def canGenerate (text : String) (s : VoiceSettings) : Bool :=
  !(jsTrimList text.data).isEmpty && !s.voiceStyle.data.isEmpty
    && !s.voiceSpeed.data.isEmpty && !s.voicePitch.data.isEmpty
    && !s.emotion.data.isEmpty && !s.character.data.isEmpty

/-- Embeds `SupabaseService.saveAudioGeneration`: on a database error it logs
and rethrows the error, on success it resolves with the inserted record
(abstracted to `Unit`). -/
def saveAudioGeneration (dbResult : Except String Unit) : Except String Unit :=
  match dbResult with
  | .error e => .error e
  | .ok d => .ok d

/-- Embeds `TextToSpeechGenerator.handleGenerate`.  Inputs: the generation
environment, text and settings, the authenticated user id if any, and the
database outcome `dbResult` the persistence call would have.  Returns the
final component state and the persistence outcome actually incurred (`none`
when no save was attempted).  The inner `try/catch` around
`saveAudioGeneration` only logs a failure, so the returned state is built
from the generation result alone; the outer `catch` stores the error message
(with the JavaScript `||` default for a falsy message) and never fires for
persistence failures. -/
def handleGenerate (env : TTSEnv) (text : String) (settings : VoiceSettings)
    (user : Option String) (dbResult : Except String Unit)
    (st0 : GeneratorState) : GeneratorState × Option (Except String Unit) :=
  if canGenerate text settings = false then (st0, none)
  else
    match (generateSpeechWithFallback env text settings).result with
    | .ok r =>
      ({ isGenerating := false
         progress := (generateSpeechWithFallback env text settings).progress.foldl (fun _ v => v) 0
         audioUrl := r.map GenerationResult.audioUrl
         audioBlob := r.map GenerationResult.audioBlob
         error := "" },
       match user with
       | some _ => some (saveAudioGeneration dbResult)
       | none => none)
    | .error msg =>
      ({ isGenerating := false
         progress := (generateSpeechWithFallback env text settings).progress.foldl (fun _ v => v) 0
         audioUrl := none
         audioBlob := none
         error := if msg = "" then "Failed to generate audio. Please try again." else msg },
       none)


/-! ## Sample inputs used by witnesses and counterexamples -/

/-- A settings tuple with every field a known key. -/
def sampleSettings : VoiceSettings :=
  { voiceStyle := "female", voiceSpeed := "normal", voicePitch := "medium"
    emotion := "neutral", character := "chloe" }

/-- A settings tuple whose character and speed keys are outside both lookup
tables. -/
def unknownSettings : VoiceSettings :=
  { voiceStyle := "male", voiceSpeed := "turbo", voicePitch := "high"
    emotion := "angry", character := "zoe" }

/-- Environment where the key is configured and both the request and the body
read succeed, with a one-byte audio payload. -/
def envOk : TTSEnv :=
  { apiKeyConfigured := true, apiResponse := .ok (), responseBody := .ok [7] }

/-- Environment where the key is configured but the vendor request rejects
with a network failure. -/
def envNetFail : TTSEnv :=
  { apiKeyConfigured := true, apiResponse := .error "network timeout", responseBody := .ok [] }

/-- Environment with no API key configured. -/
def envNoKey : TTSEnv :=
  { apiKeyConfigured := false, apiResponse := .ok (), responseBody := .ok [] }

/-- A 155-word text: 155 copies of the word a, space separated. -/
def text155 : String := String.mk ((List.replicate 154 ['a', ' ']).flatten ++ ['a'])

/-- The result `generateSpeech` resolves with in `envOk` on the two-word
scenario text. -/
def sampleResult : GenerationResult :=
  { audioUrl := createObjectURL [7], audioBlob := [7]
    duration := estimatedDuration (jsWordCount "Hello world")
    fileSize := 1, format := "mp3" }

/-- The component state before a generation. -/
def initialState : GeneratorState :=
  { isGenerating := false, progress := 0, audioUrl := none, audioBlob := none, error := "" }

/-! ## Helper lemmas -/

/-! ### roundNE bounds and monotonicity -/

lemma qfloor_eq {q : ℚ} {n : ℤ} (h1 : (n:ℚ) ≤ q) (h2 : q < n + 1) : ⌊q⌋ = n :=
  Int.floor_eq_iff.mpr ⟨h1, h2⟩

lemma roundNE_le (q : ℚ) : (roundNE q : ℚ) ≤ q + 1/2 := by
  have h1 := Int.floor_le q
  have h2 := Int.lt_floor_add_one q
  unfold roundNE
  split_ifs with a b c <;> push_cast <;> linarith

lemma le_roundNE (q : ℚ) : q - 1/2 ≤ (roundNE q : ℚ) := by
  have h1 := Int.floor_le q
  have h2 := Int.lt_floor_add_one q
  unfold roundNE
  split_ifs with a b c <;> push_cast <;> linarith

lemma roundNE_mono {a b : ℚ} (hab : a ≤ b) : roundNE a ≤ roundNE b := by
  by_contra hcon
  push_neg at hcon
  have h1 : (roundNE b : ℚ) + 1 ≤ (roundNE a : ℚ) := by
    exact_mod_cast Int.add_one_le_iff.mpr hcon
  have h2 := roundNE_le a
  have h3 := le_roundNE b
  have heq : a = b := le_antisymm hab (by linarith)
  rw [heq] at hcon
  exact lt_irrefl _ hcon

/-! ### dblRound bounds and monotonicity -/

lemma mantissa_lb {q : ℚ} (hq : 0 < q) :
    (2:ℚ)^(52:ℤ) ≤ q * (2:ℚ)^((52:ℤ) - Int.log 2 q) := by
  have h : ((2:ℕ):ℚ) ^ Int.log 2 q ≤ q := Int.zpow_log_le_self (by norm_num) hq
  have h2 : (0:ℚ) < (2:ℚ)^((52:ℤ) - Int.log 2 q) := zpow_pos (by norm_num) _
  have hs : (2:ℚ)^(Int.log 2 q) * (2:ℚ)^((52:ℤ) - Int.log 2 q) = (2:ℚ)^(52:ℤ) := by
    rw [← zpow_add₀ (by norm_num : (2:ℚ) ≠ 0)]
    congr 1
    ring
  rw [← hs]
  apply mul_le_mul_of_nonneg_right _ h2.le
  exact_mod_cast h

lemma mantissa_ub {q : ℚ} (_hq : 0 < q) :
    q * (2:ℚ)^((52:ℤ) - Int.log 2 q) < (2:ℚ)^(53:ℤ) := by
  have h : q < ((2:ℕ):ℚ) ^ (Int.log 2 q + 1) := Int.lt_zpow_succ_log_self (by norm_num) q
  have h2 : (0:ℚ) < (2:ℚ)^((52:ℤ) - Int.log 2 q) := zpow_pos (by norm_num) _
  have hs : (2:ℚ)^(Int.log 2 q + 1) * (2:ℚ)^((52:ℤ) - Int.log 2 q) = (2:ℚ)^(53:ℤ) := by
    rw [← zpow_add₀ (by norm_num : (2:ℚ) ≠ 0)]
    congr 1
    ring
  rw [← hs]
  apply mul_lt_mul_of_pos_right _ h2
  exact_mod_cast h

lemma roundNE_mantissa_lb {q : ℚ} (hq : 0 < q) :
    (2^52 : ℤ) ≤ roundNE (q * (2:ℚ)^((52:ℤ) - Int.log 2 q)) := by
  have hm := mantissa_lb hq
  have h := le_roundNE (q * (2:ℚ)^((52:ℤ) - Int.log 2 q))
  have hz : ((2^52 : ℤ) : ℚ) - 1 < (roundNE (q * (2:ℚ)^((52:ℤ) - Int.log 2 q)) : ℚ) := by
    push_cast
    linarith
  have hz2 : (2^52 : ℤ) - 1 < roundNE (q * (2:ℚ)^((52:ℤ) - Int.log 2 q)) := by
    exact_mod_cast hz
  omega

lemma roundNE_mantissa_ub {q : ℚ} (hq : 0 < q) :
    roundNE (q * (2:ℚ)^((52:ℤ) - Int.log 2 q)) ≤ (2^53 : ℤ) := by
  have hm := mantissa_ub hq
  have h := roundNE_le (q * (2:ℚ)^((52:ℤ) - Int.log 2 q))
  have hz : (roundNE (q * (2:ℚ)^((52:ℤ) - Int.log 2 q)) : ℚ) < ((2^53 : ℤ) : ℚ) + 1 := by
    push_cast
    linarith
  have hz2 : roundNE (q * (2:ℚ)^((52:ℤ) - Int.log 2 q)) < (2^53 : ℤ) + 1 := by
    exact_mod_cast hz
  omega

lemma dblRound_lb {q : ℚ} (hq : 0 < q) : (2:ℚ)^(Int.log 2 q) ≤ dblRound q := by
  rw [dblRound, if_neg (not_le.mpr hq)]
  have h := roundNE_mantissa_lb hq
  have hp : (0:ℚ) < (2:ℚ)^(Int.log 2 q - (52:ℤ)) := zpow_pos (by norm_num) _
  have hs : (2:ℚ)^((52:ℤ)) * (2:ℚ)^(Int.log 2 q - (52:ℤ)) = (2:ℚ)^(Int.log 2 q) := by
    rw [← zpow_add₀ (by norm_num : (2:ℚ) ≠ 0)]
    congr 1
    ring
  rw [← hs]
  apply mul_le_mul_of_nonneg_right _ hp.le
  exact_mod_cast h

lemma dblRound_ub {q : ℚ} (hq : 0 < q) : dblRound q ≤ (2:ℚ)^(Int.log 2 q + 1) := by
  rw [dblRound, if_neg (not_le.mpr hq)]
  have h := roundNE_mantissa_ub hq
  have hp : (0:ℚ) < (2:ℚ)^(Int.log 2 q - (52:ℤ)) := zpow_pos (by norm_num) _
  have hs : (2:ℚ)^((53:ℤ)) * (2:ℚ)^(Int.log 2 q - (52:ℤ)) = (2:ℚ)^(Int.log 2 q + 1) := by
    rw [← zpow_add₀ (by norm_num : (2:ℚ) ≠ 0)]
    congr 1
    ring
  rw [← hs]
  apply mul_le_mul_of_nonneg_right _ hp.le
  exact_mod_cast h

lemma dblRound_nonneg (q : ℚ) : 0 ≤ dblRound q := by
  rcases le_or_lt q 0 with h | h
  · rw [dblRound, if_pos h]
  · exact (lt_of_lt_of_le (zpow_pos (by norm_num) _) (dblRound_lb h)).le

lemma dblRound_mono {x y : ℚ} (hxy : x ≤ y) : dblRound x ≤ dblRound y := by
  rcases le_or_lt x 0 with hx | hx
  · rw [dblRound, if_pos hx]
    exact dblRound_nonneg y
  · have hy : 0 < y := lt_of_lt_of_le hx hxy
    have hlog : Int.log 2 x ≤ Int.log 2 y := Int.log_mono_right hx hxy
    rcases eq_or_lt_of_le hlog with heq | hlt
    · rw [dblRound, if_neg (not_le.mpr hx), dblRound, if_neg (not_le.mpr hy), ← heq]
      apply mul_le_mul_of_nonneg_right _ (zpow_pos (by norm_num : (0:ℚ) < 2) _).le
      have hmm : x * (2:ℚ)^((52:ℤ) - Int.log 2 x) ≤ y * (2:ℚ)^((52:ℤ) - Int.log 2 x) :=
        mul_le_mul_of_nonneg_right hxy (zpow_pos (by norm_num) _).le
      exact_mod_cast roundNE_mono hmm
    · calc dblRound x ≤ (2:ℚ)^(Int.log 2 x + 1) := dblRound_ub hx
        _ ≤ (2:ℚ)^(Int.log 2 y) := zpow_le_zpow_right₀ (by norm_num : (1:ℚ) ≤ 2) (by omega)
        _ ≤ dblRound y := dblRound_lb hy

lemma estimatedDuration_mono {a b : Nat} (h : a ≤ b) :
    estimatedDuration a ≤ estimatedDuration b := by
  unfold estimatedDuration
  apply Int.toNat_le_toNat
  apply Int.ceil_mono
  apply dblRound_mono
  apply mul_le_mul_of_nonneg_right _ (by norm_num : (0:ℚ) ≤ 60)
  apply dblRound_mono
  apply div_le_div_of_nonneg_right ?_ ?_
  · exact_mod_cast h
  · norm_num


/-! ### Concrete binary64 evaluations -/

lemma qlog2_eq (q : ℚ) (e : ℤ) (h0 : 0 < q) (h1 : ((2:ℕ):ℚ)^e ≤ q)
    (h2 : q < ((2:ℕ):ℚ)^(e+1)) : Int.log 2 q = e := by
  have hb : 1 < 2 := by norm_num
  have hle := (Int.zpow_le_iff_le_log hb h0).mp h1
  have hlt := (Int.lt_zpow_iff_log_lt hb h0).mp h2
  omega

lemma roundNE_eq_up (q : ℚ) (n : ℤ) (hfl : ⌊q⌋ = n) (h : 1/2 < q - n) :
    roundNE q = n + 1 := by
  rw [roundNE, hfl, if_neg (by linarith), if_pos h]

lemma roundNE_eq_down (q : ℚ) (n : ℤ) (hfl : ⌊q⌋ = n) (h : q - n < 1/2) :
    roundNE q = n := by
  rw [roundNE, hfl, if_pos h]

lemma dblRound_eq_of (q m : ℚ) (e n : ℤ) (hq : 0 < q) (hlog : Int.log 2 q = e)
    (hm : q * (2:ℚ)^((52:ℤ) - e) = m) (hr : roundNE m = n) :
    dblRound q = (n:ℚ) * (2:ℚ)^(e - (52:ℤ)) := by
  rw [dblRound, if_neg (not_le.mpr hq), hlog, hm, hr]

lemma dblRound_A : dblRound ((2:ℚ)/150) = (7686143364045647:ℚ) * (2:ℚ)^((-7:ℤ) - 52) :=
  dblRound_eq_of ((2:ℚ)/150) ((576460752303423488:ℚ)/75) (-7) 7686143364045647
    (by norm_num)
    (qlog2_eq _ _ (by norm_num) (by norm_num) (by norm_num))
    (by norm_num)
    (by rw [roundNE_eq_up ((576460752303423488:ℚ)/75) 7686143364045646
          (qfloor_eq (by norm_num) (by norm_num)) (by norm_num)]; norm_num)

lemma dblRound_B : dblRound ((115292150460684705:ℚ)/144115188075855872)
    = (7205759403792794:ℚ) * (2:ℚ)^((-1:ℤ) - 52) :=
  dblRound_eq_of ((115292150460684705:ℚ)/144115188075855872)
    ((115292150460684705:ℚ)/16) (-1) 7205759403792794
    (by norm_num)
    (qlog2_eq _ _ (by norm_num) (by norm_num) (by norm_num))
    (by norm_num)
    (roundNE_eq_down ((115292150460684705:ℚ)/16) 7205759403792794
      (qfloor_eq (by norm_num) (by norm_num)) (by norm_num))

lemma dblRound_C : dblRound ((155:ℚ)/150) = (4653719614949513:ℚ) * (2:ℚ)^((0:ℤ) - 52) :=
  dblRound_eq_of ((155:ℚ)/150) ((139611588448485376:ℚ)/30) 0 4653719614949513
    (by norm_num)
    (qlog2_eq _ _ (by norm_num) (by norm_num) (by norm_num))
    (by norm_num)
    (by rw [roundNE_eq_up ((139611588448485376:ℚ)/30) 4653719614949512
          (qfloor_eq (by norm_num) (by norm_num)) (by norm_num)]; norm_num)

lemma dblRound_D : dblRound ((69805794224242695:ℚ)/1125899906842624)
    = (8725724278030337:ℚ) * (2:ℚ)^((5:ℤ) - 52) :=
  dblRound_eq_of ((69805794224242695:ℚ)/1125899906842624)
    ((69805794224242695:ℚ)/8) 5 8725724278030337
    (by norm_num)
    (qlog2_eq _ _ (by norm_num) (by norm_num) (by norm_num))
    (by norm_num)
    (by rw [roundNE_eq_up ((69805794224242695:ℚ)/8) 8725724278030336
          (qfloor_eq (by norm_num) (by norm_num)) (by norm_num)]; norm_num)

lemma estimatedDuration_two : estimatedDuration 2 = 1 := by
  unfold estimatedDuration
  rw [show ((2:ℕ):ℚ) = (2:ℚ) by norm_num, dblRound_A]
  rw [show (7686143364045647:ℚ) * (2:ℚ)^((-7:ℤ) - 52) * 60
      = (115292150460684705:ℚ)/144115188075855872 by norm_num]
  rw [dblRound_B]
  rw [show ⌈(7205759403792794:ℚ) * (2:ℚ)^((-1:ℤ) - 52)⌉ = 1 from
      Int.ceil_eq_iff.mpr (by norm_num)]
  rfl

lemma estimatedDuration_155 : estimatedDuration 155 = 63 := by
  unfold estimatedDuration
  rw [show ((155:ℕ):ℚ) = (155:ℚ) by norm_num, dblRound_C]
  rw [show (4653719614949513:ℚ) * (2:ℚ)^((0:ℤ) - 52) * 60
      = (69805794224242695:ℚ)/1125899906842624 by norm_num]
  rw [dblRound_D]
  rw [show ⌈(8725724278030337:ℚ) * (2:ℚ)^((5:ℤ) - 52)⌉ = 63 from
      Int.ceil_eq_iff.mpr (by norm_num)]
  rfl

lemma specCeilDuration_155 : specCeilDuration 155 = 62 := by
  unfold specCeilDuration
  rw [show ((155:ℕ):ℚ)/150*60 = 62 by push_cast; norm_num]
  simp


lemma specCeilDuration_mono {a b : Nat} (h : a ≤ b) :
    specCeilDuration a ≤ specCeilDuration b := by
  unfold specCeilDuration
  apply Nat.ceil_mono
  apply mul_le_mul_of_nonneg_right _ (by norm_num : (0:ℚ) ≤ 60)
  apply div_le_div_of_nonneg_right ?_ ?_
  · exact_mod_cast h
  · norm_num

lemma voiceMapping_eq_none {c : String}
    (h : c ∉ (["chloe", "kelly", "racheal", "david", "alex", "sarah"] : List String))
    (hp : c ∉ objectPrototypeKeys) :
    voiceMapping c = none := by
  unfold voiceMapping
  split_ifs <;> simp_all

lemma speedMapping_eq_none {v : String}
    (h : v ∉ (["slow", "normal", "fast"] : List String))
    (hp : v ∉ objectPrototypeKeys) :
    speedMapping v = none := by
  unfold speedMapping
  split_ifs <;> simp_all

lemma voiceMapping_eq_protoMember {c : String}
    (h : c ∉ (["chloe", "kelly", "racheal", "david", "alex", "sarah"] : List String))
    (hp : c ∈ objectPrototypeKeys) :
    voiceMapping c = some (.protoMember c) := by
  unfold voiceMapping
  split_ifs <;> simp_all

lemma speedMapping_eq_protoMember {v : String}
    (h : v ∉ (["slow", "normal", "fast"] : List String))
    (hp : v ∈ objectPrototypeKeys) :
    speedMapping v = some (.protoMember v) := by
  unfold speedMapping
  split_ifs <;> simp_all

lemma generateSpeech_ok_duration (env : TTSEnv) (text : String) (s : VoiceSettings)
    (r : GenerationResult) (h : (generateSpeech env text s).result = .ok r) :
    r.duration = estimatedDuration (jsWordCount text) := by
  rcases env with ⟨key, resp, body⟩
  cases key
  · simp [generateSpeech] at h
  · by_cases ht : jsTrimList text.data = []
    · simp [generateSpeech, ht] at h
    · rcases resp with msg | u
      · simp [generateSpeech, ht] at h
      · rcases body with msg | bytes
        · simp [generateSpeech, ht] at h
        · simp [generateSpeech, ht] at h
          rw [← h]


/-! ## Claims -/

/-- C1: the claim states that when the primary provider fails the fallback
provider also always fails (a non-implemented placeholder), so every primary
failure surfaces the single aggregated both-services-unavailable error.  The
code contradicts this: the placeholder throw statement is commented out, so
`generateSpeechWithGoogleCloud` fulfills with `undefined` and
`generateSpeechWithFallback` resolves successfully with no result instead of
rejecting.  Closed evaluation at a primary network failure. -/
theorem C1_bothFail_aggregatedError_missing :
    (generateSpeechWithGoogleCloud "Hello world" sampleSettings).isOk = true ∧
    (generateSpeechWithFallback envNetFail "Hello world" sampleSettings).result = .ok none ∧
    (generateSpeechWithFallback envNetFail "Hello world" sampleSettings).result ≠
      .error "Both OpenAI and Google Cloud TTS services are unavailable. Please try again later." := by
  decide

/-- C2: the claim states that empty or whitespace-only text and missing
credentials make the generate operation fail before any network call, with
the error reaching the caller.  The fail-fast half holds of `generateSpeech`
(no network call, classified error), but the error never reaches the caller
of `generateSpeechWithFallback`: the buggy fallback swallows it and the
operation resolves with no result.  Closed evaluation at whitespace-only
text and at a missing key. -/
theorem C2_preconditionErrors_swallowed :
    (generateSpeech envOk "   " sampleSettings).result
      = .error "Speech generation failed: Text content is required for speech generation." ∧
    (generateSpeech envOk "   " sampleSettings).networkCalled = false ∧
    (generateSpeechWithFallback envOk "   " sampleSettings).result = .ok none ∧
    (generateSpeech envNoKey "Hello world" sampleSettings).result
      = .error "Invalid or missing OpenAI API key. Please check your configuration." ∧
    (generateSpeech envNoKey "Hello world" sampleSettings).networkCalled = false ∧
    (generateSpeechWithFallback envNoKey "Hello world" sampleSettings).result = .ok none := by
  decide

/-- C3 counterexample: the claim says every character key outside the six
known names maps to the alloy voice and every speed key outside slow, normal,
fast maps to 1.0.  The unrecognized key constructor refutes both: the
object-literal read walks the prototype chain and finds the truthy inherited
constructor member, so the `||` defaults never apply and the program forwards
the inherited member, not alloy or 1.0. -/
theorem C3_counterexample :
    (mapVoiceSettings { voiceStyle := "female", voiceSpeed := "constructor"
                        voicePitch := "medium", emotion := "neutral"
                        character := "constructor" }).voice ≠ .val "alloy" ∧
    (mapVoiceSettings { voiceStyle := "female", voiceSpeed := "constructor"
                        voicePitch := "medium", emotion := "neutral"
                        character := "constructor" }).voice
      = .protoMember "constructor" ∧
    (mapVoiceSettings { voiceStyle := "female", voiceSpeed := "constructor"
                        voicePitch := "medium", emotion := "neutral"
                        character := "constructor" }).speed ≠ .val 1 ∧
    (mapVoiceSettings { voiceStyle := "female", voiceSpeed := "constructor"
                        voicePitch := "medium", emotion := "neutral"
                        character := "constructor" }).speed
      = .protoMember "constructor" := by
  decide

/-- C3 as amended: `mapVoiceSettings` is total (a Lean function, so it cannot
throw).  A character key outside the six known names maps to the alloy voice,
and a speed key outside slow, normal, fast maps to speed 1.0, provided the
key is not the name of an `Object.prototype` member; a prototype-named
unknown key instead leaks the truthy inherited member into the request (see
the counterexample).  Known keys map through the fixed tables (chloe to
alloy, david to onyx, slow to 0.75, normal to 1.0, fast to 1.25). -/
theorem C3_mapVoiceSettings_defaults :
    ∀ s : VoiceSettings,
      (s.character ∉ (["chloe", "kelly", "racheal", "david", "alex", "sarah"] : List String) →
        s.character ∉ objectPrototypeKeys →
        (mapVoiceSettings s).voice = .val "alloy") ∧
      (s.voiceSpeed ∉ (["slow", "normal", "fast"] : List String) →
        s.voiceSpeed ∉ objectPrototypeKeys →
        (mapVoiceSettings s).speed = .val 1) ∧
      (s.character ∉ (["chloe", "kelly", "racheal", "david", "alex", "sarah"] : List String) →
        s.character ∈ objectPrototypeKeys →
        (mapVoiceSettings s).voice = .protoMember s.character) ∧
      (s.voiceSpeed ∉ (["slow", "normal", "fast"] : List String) →
        s.voiceSpeed ∈ objectPrototypeKeys →
        (mapVoiceSettings s).speed = .protoMember s.voiceSpeed) ∧
      (s.character = "chloe" → (mapVoiceSettings s).voice = .val "alloy") ∧
      (s.character = "david" → (mapVoiceSettings s).voice = .val "onyx") ∧
      (s.voiceSpeed = "slow" → (mapVoiceSettings s).speed = .val (3/4)) ∧
      (s.voiceSpeed = "normal" → (mapVoiceSettings s).speed = .val 1) ∧
      (s.voiceSpeed = "fast" → (mapVoiceSettings s).speed = .val (5/4)) := by
  intro s
  refine ⟨fun h hp => ?_, fun h hp => ?_, fun h hp => ?_, fun h hp => ?_,
    fun h => ?_, fun h => ?_, fun h => ?_, fun h => ?_, fun h => ?_⟩
  · simp [mapVoiceSettings, voiceMapping_eq_none h hp]
  · simp [mapVoiceSettings, speedMapping_eq_none h hp]
  · simp [mapVoiceSettings, voiceMapping_eq_protoMember h hp]
  · simp [mapVoiceSettings, speedMapping_eq_protoMember h hp]
  · simp [mapVoiceSettings, voiceMapping, h]
  · simp [mapVoiceSettings, voiceMapping, h]
  · simp [mapVoiceSettings, speedMapping, h]
  · simp [mapVoiceSettings, speedMapping, h]
  · simp [mapVoiceSettings, speedMapping, h]

/-- Witness for C3 as amended at a settings tuple whose character and speed
are unknown, non-prototype keys (defaults apply), and at the david known
key. -/
theorem C3_witness :
    (mapVoiceSettings unknownSettings).voice = .val "alloy" ∧
    (mapVoiceSettings unknownSettings).speed = .val 1 ∧
    (mapVoiceSettings { voiceStyle := "female", voiceSpeed := "fast", voicePitch := "low"
                        emotion := "calm", character := "david" }).voice = .val "onyx" :=
  ⟨(C3_mapVoiceSettings_defaults unknownSettings).1 (by decide) (by decide),
   (C3_mapVoiceSettings_defaults unknownSettings).2.1 (by decide) (by decide),
   (C3_mapVoiceSettings_defaults _).2.2.2.2.2.1 rfl⟩

set_option maxRecDepth 10000 in
/-- C4 counterexample: the claim says a successful generation at any
non-empty text returns exactly ceil of wordCount divided by 150 times 60.
At the 155-word text the program (binary64 arithmetic) returns 63, while the
claimed exact ceiling is 62: 155/150 rounds up in binary64, and the product
with 60 lands just above the exact value 62. -/
theorem C4_counterexample :
    (generateSpeech envOk text155 sampleSettings).result.map GenerationResult.duration
      = .ok (estimatedDuration 155) ∧
    estimatedDuration 155 = 63 ∧ specCeilDuration 155 = 62 ∧ (63 : Nat) ≠ 62 := by
  refine ⟨?_, estimatedDuration_155, specCeilDuration_155, by decide⟩
  have h : (generateSpeech envOk text155 sampleSettings).result.map GenerationResult.duration
      = .ok (estimatedDuration (jsWordCount text155)) := rfl
  rw [h, show jsWordCount text155 = 155 from by decide]

/-- C4 as amended: a successful `generateSpeech` returns as duration the
binary64 evaluation of ceil of wordCount divided by 150 times 60
(`estimatedDuration`), which agrees with the exact ceiling on the two-word
scenario (value 1 second for the Hello world text) but not at every word
count (first deviation at 155 words, see the counterexample). -/
theorem C4_amended_duration :
    (∀ env text s r, (generateSpeech env text s).result = .ok r →
      r.duration = estimatedDuration (jsWordCount text)) ∧
    estimatedDuration (jsWordCount "Hello world") = 1 ∧
    specCeilDuration (jsWordCount "Hello world") = 1 := by
  refine ⟨generateSpeech_ok_duration, ?_, ?_⟩
  · rw [show jsWordCount "Hello world" = 2 from by decide]
    exact estimatedDuration_two
  · rw [show jsWordCount "Hello world" = 2 from by decide]
    unfold specCeilDuration
    rw [show ((2:ℕ):ℚ)/150*60 = 4/5 by push_cast; norm_num]
    rw [Nat.ceil_eq_iff (by norm_num)]
    norm_num

/-- Witness for C4 as amended: at the Hello world scenario the resolved
duration is exactly 1 second. -/
theorem C4_amended_witness :
    sampleResult.duration = 1 ∧
    (generateSpeech envOk "Hello world" sampleSettings).result = .ok sampleResult := by
  have h : (generateSpeech envOk "Hello world" sampleSettings).result = .ok sampleResult := rfl
  exact ⟨(C4_amended_duration.1 envOk "Hello world" sampleSettings sampleResult h).trans
    C4_amended_duration.2.1, h⟩

/-- C5: the duration estimate is monotonically non-decreasing in the word
count, both for the binary64 evaluation the program performs
(`estimatedDuration`) and for the exact ceiling formula the claim spells out
(`specCeilDuration`). -/
theorem C5_duration_monotone :
    ∀ t1 t2 : String, jsWordCount t2 ≤ jsWordCount t1 →
      estimatedDuration (jsWordCount t2) ≤ estimatedDuration (jsWordCount t1) ∧
      specCeilDuration (jsWordCount t2) ≤ specCeilDuration (jsWordCount t1) :=
  fun _ _ h => ⟨estimatedDuration_mono h, specCeilDuration_mono h⟩

/-- Witness for C5 on a two-word and a three-word text. -/
theorem C5_witness :
    jsWordCount "Hello world" ≤ jsWordCount "one two three" ∧
    estimatedDuration (jsWordCount "Hello world")
      ≤ estimatedDuration (jsWordCount "one two three") :=
  ⟨by decide,
   (C5_duration_monotone "one two three" "Hello world" (by decide)).1⟩

/-- C6: the values passed to the progress callback by `generateSpeech` are
non-decreasing; on success they are exactly 10, 30, 70, 90, 100; on failure
the emitted calls are an initial segment of 10, 30, 70 — in particular
nothing (and never 100) is emitted after the failure. -/
theorem C6_progress_sequence :
    ∀ env text s,
      List.Chain' (· ≤ ·) (generateSpeech env text s).progress ∧
      (∀ r, (generateSpeech env text s).result = .ok r →
        (generateSpeech env text s).progress = [10, 30, 70, 90, 100]) ∧
      (∀ msg, (generateSpeech env text s).result = .error msg →
        (generateSpeech env text s).progress <+: [10, 30, 70]) := by
  intro env text s
  rcases env with ⟨key, resp, body⟩
  cases key
  · refine ⟨by simp [generateSpeech], ?_, ?_⟩
    · intro r hr
      simp [generateSpeech] at hr
    · intro msg _
      exact ⟨[10, 30, 70], rfl⟩
  · by_cases ht : jsTrimList text.data = []
    · refine ⟨by simp [generateSpeech, ht], ?_, ?_⟩
      · intro r hr
        simp [generateSpeech, ht] at hr
      · intro msg _
        simp [generateSpeech, ht]
    · rcases resp with msg | u
      · refine ⟨by simp [generateSpeech, ht], ?_, ?_⟩
        · intro r hr
          simp [generateSpeech, ht] at hr
        · intro m _
          simp [generateSpeech, ht]
      · rcases body with msg | bytes
        · refine ⟨by simp [generateSpeech, ht], ?_, ?_⟩
          · intro r hr
            simp [generateSpeech, ht] at hr
          · intro m _
            simp [generateSpeech, ht]
        · refine ⟨by simp [generateSpeech, ht], ?_, ?_⟩
          · intro r _
            simp [generateSpeech, ht]
          · intro m hm
            simp [generateSpeech, ht] at hm

/-- Witness for C6: on a network failure the emitted calls are 10, 30 — a
strict initial segment of the success sequence — and on success they are the
full sequence. -/
theorem C6_witness :
    (generateSpeech envNetFail "Hello world" sampleSettings).progress <+: [10, 30, 70] ∧
    (generateSpeech envOk "Hello world" sampleSettings).progress = [10, 30, 70, 90, 100] :=
  ⟨(C6_progress_sequence envNetFail "Hello world" sampleSettings).2.2
      (wrapTTSError "network timeout") rfl,
   (C6_progress_sequence envOk "Hello world" sampleSettings).2.1 sampleResult rfl⟩

/-- C7 counterexample: the claim says the seek handler clamps so the
resulting position always lies in the closed interval from 0 to the
duration.  `handleSeek` contains no clamping: a click coordinate one pixel
left of the progress bar produces a negative playback position. -/
theorem C7_counterexample :
    (handleSeek { clientX := -1, rectLeft := 0, rectWidth := 100 }
      { isPlaying := false, currentTime := 0, duration := 10, volume := 1 }).currentTime < 0 := by
  norm_num [handleSeek]

/-- C7 as amended: `handleSeek` performs no clamping; it sets the position to
the click fraction times the duration and leaves the play state (and the
duration and volume) unchanged, and the position lies in the closed interval
from 0 to the duration exactly under the geometric guarantee that the click
offset lies inside the progress-bar rectangle and the duration is
nonnegative. -/
theorem C7_amended_seek :
    ∀ (e : SeekEvent) (st : PlayerState),
      0 ≤ e.clientX - e.rectLeft → e.clientX - e.rectLeft ≤ e.rectWidth →
      0 < e.rectWidth → 0 ≤ st.duration →
      0 ≤ (handleSeek e st).currentTime ∧
      (handleSeek e st).currentTime ≤ st.duration ∧
      (handleSeek e st).isPlaying = st.isPlaying ∧
      (handleSeek e st).duration = st.duration ∧
      (handleSeek e st).volume = st.volume := by
  intro e st h0 h1 hw hd
  refine ⟨?_, ?_, rfl, rfl, rfl⟩
  · exact mul_nonneg (div_nonneg h0 hw.le) hd
  · have hfrac : (e.clientX - e.rectLeft) / e.rectWidth ≤ 1 := by
      rw [div_le_one hw]
      exact h1
    calc (e.clientX - e.rectLeft) / e.rectWidth * st.duration
        ≤ 1 * st.duration := mul_le_mul_of_nonneg_right hfrac hd
      _ = st.duration := one_mul _

/-- Witness for C7 as amended: a click at the middle of the bar seeks to half
the duration, inside range, play state untouched. -/
theorem C7_witness :
    0 ≤ (handleSeek { clientX := 50, rectLeft := 0, rectWidth := 100 }
          { isPlaying := true, currentTime := 3, duration := 10, volume := 1 }).currentTime ∧
    (handleSeek { clientX := 50, rectLeft := 0, rectWidth := 100 }
      { isPlaying := true, currentTime := 3, duration := 10, volume := 1 }).currentTime ≤ 10 ∧
    (handleSeek { clientX := 50, rectLeft := 0, rectWidth := 100 }
      { isPlaying := true, currentTime := 3, duration := 10, volume := 1 }).isPlaying = true := by
  have h := C7_amended_seek { clientX := 50, rectLeft := 0, rectWidth := 100 }
    { isPlaying := true, currentTime := 3, duration := 10, volume := 1 }
    (by norm_num) (by norm_num) (by norm_num) (by norm_num)
  exact ⟨h.1, h.2.1, h.2.2.1⟩

/-- C8 counterexample: the claim says the volume handler clamps the value to
the unit interval before applying it.  `handleVolumeChange` contains no
clamping: the value 2 is applied as is, leaving the volume outside the unit
interval. -/
theorem C8_counterexample :
    (handleVolumeChange 2
      { isPlaying := true, currentTime := 5, duration := 10, volume := 1 }).volume = 2 ∧
    ¬ (handleVolumeChange 2
      { isPlaying := true, currentTime := 5, duration := 10, volume := 1 }).volume ≤ 1 := by
  refine ⟨rfl, ?_⟩
  norm_num [handleVolumeChange]

/-- C8 as amended: `handleVolumeChange` applies the parsed value unchanged —
no clamping — and leaves the play state and position untouched; the
resulting volume lies in the unit interval exactly when the incoming value
does (which the range input with min 0 and max 1 guarantees in the UI). -/
theorem C8_amended_volume :
    ∀ (v : ℚ) (st : PlayerState), 0 ≤ v → v ≤ 1 →
      0 ≤ (handleVolumeChange v st).volume ∧ (handleVolumeChange v st).volume ≤ 1 ∧
      (handleVolumeChange v st).volume = v ∧
      (handleVolumeChange v st).isPlaying = st.isPlaying ∧
      (handleVolumeChange v st).currentTime = st.currentTime ∧
      (handleVolumeChange v st).duration = st.duration :=
  fun _ _ h0 h1 => ⟨h0, h1, rfl, rfl, rfl, rfl⟩

/-- Witness for C8 as amended at volume one half. -/
theorem C8_witness :
    0 ≤ (handleVolumeChange (1/2)
      { isPlaying := false, currentTime := 0, duration := 10, volume := 1 }).volume ∧
    (handleVolumeChange (1/2)
      { isPlaying := false, currentTime := 0, duration := 10, volume := 1 }).volume ≤ 1 := by
  have h := C8_amended_volume (1/2)
    { isPlaying := false, currentTime := 0, duration := 10, volume := 1 }
    (by norm_num) (by norm_num)
  exact ⟨h.1, h.2.1⟩

/-- C9: a persistence failure never turns a successful generation into a
failure: for an authenticated user whose `saveAudioGeneration` call rejects,
the final state still carries the audio URL and blob, surfaces no error, and
is identical to the state reached when the save succeeds; the persistence
error is confined to the inner catch (only logged). -/
theorem C9_persistence_failure_harmless :
    ∀ env text s uid saveErr r st0,
      canGenerate text s = true →
      (generateSpeechWithFallback env text s).result = .ok (some r) →
      (handleGenerate env text s (some uid) (.error saveErr) st0).1.audioUrl = some r.audioUrl ∧
      (handleGenerate env text s (some uid) (.error saveErr) st0).1.audioBlob = some r.audioBlob ∧
      (handleGenerate env text s (some uid) (.error saveErr) st0).1.error = "" ∧
      (handleGenerate env text s (some uid) (.error saveErr) st0).1
        = (handleGenerate env text s (some uid) (.ok ()) st0).1 ∧
      (handleGenerate env text s (some uid) (.error saveErr) st0).2
        = some (.error saveErr) := by
  intro env text s uid saveErr r st0 hc hr
  unfold handleGenerate
  simp [hc, hr, saveAudioGeneration]

/-- Witness for C9: concrete successful generation with a failing database
save; the audio is kept and no error is surfaced. -/
theorem C9_witness :
    canGenerate "Hello world" sampleSettings = true ∧
    (handleGenerate envOk "Hello world" sampleSettings (some "user-1") (.error "db down")
      initialState).1.error = "" ∧
    (handleGenerate envOk "Hello world" sampleSettings (some "user-1") (.error "db down")
      initialState).1.audioUrl = some sampleResult.audioUrl := by
  have h := C9_persistence_failure_harmless envOk "Hello world" sampleSettings "user-1"
    "db down" sampleResult initialState (by decide) rfl
  exact ⟨by decide, h.2.2.1, h.1⟩

/-- C10: noninterference of the vendor request in the style, pitch and
emotion fields: two settings tuples agreeing on character and speed map to
identical vendor parameters. -/
theorem C10_mapVoiceSettings_noninterference :
    ∀ s1 s2 : VoiceSettings, s1.character = s2.character → s1.voiceSpeed = s2.voiceSpeed →
      mapVoiceSettings s1 = mapVoiceSettings s2 := by
  intro s1 s2 h1 h2
  unfold mapVoiceSettings
  rw [h1, h2]

/-- Witness for C10: two tuples differing in style, pitch and emotion but not
in character or speed produce the same request. -/
theorem C10_witness :
    mapVoiceSettings { voiceStyle := "female", voiceSpeed := "fast", voicePitch := "low"
                       emotion := "happy", character := "david" }
      = mapVoiceSettings { voiceStyle := "male", voiceSpeed := "fast", voicePitch := "high"
                           emotion := "sad", character := "david" } :=
  C10_mapVoiceSettings_noninterference _ _ rfl rfl

end MindsMakingVoice
